import Mathlib

/-!
Verification development for the `hetzner_ddns` dynamic-DNS reconciler
(`src/main.rs`, `src/hetzner_dns.rs`).

The Rust program is shallowly embedded: the provider's HTTP API is a
`Server` value (a function per endpoint), every network interaction is
recorded in an event trace, and fallible code returns `Except`.  A Rust
panic (`unwrap` on `None`, an `unreachable!` branch) is modelled as the
distinguished error constructor `RunError.panic`.
-/

/-- Models `Pagination` from `src/hetzner_dns.rs` (lines 14-24). -/
structure Pagination where
  last_page : Nat
  page : Nat
  per_page : Nat
  total_entries : Nat
deriving DecidableEq

/-- Models `ResponseMeta` from `src/hetzner_dns.rs` (lines 26-29). -/
structure ResponseMeta where
  pagination : Pagination
deriving DecidableEq

/-- Models the generic `Response<T>` wrapper from `src/hetzner_dns.rs` (lines 31-36). -/
structure Response (T : Type) where
  meta : ResponseMeta
  content : T
deriving DecidableEq

/-- Models `Zone` from `src/hetzner_dns.rs` (lines 43-59). -/
structure Zone where
  id : String
  name : String
  owner : String
  project : String
  paused : Bool
  permission : String
  is_secondary_dns : Bool
  ns : List String
  records_count : Nat
  registrar : String
  status : String
  ttl : Nat
  created : String
  modified : String
deriving DecidableEq

/-- Models `ZoneResponse` from `src/hetzner_dns.rs` (lines 38-41). -/
structure ZoneResponse where
  zones : List Zone
deriving DecidableEq

/-- Models `Record` from `src/hetzner_dns.rs` (lines 66-77); `ttl` is `Option<u64>`. -/
structure Record where
  id : String
  name : String
  typ : String
  value : String
  ttl : Option Nat
  zone_id : String
  created : String
  modified : String
deriving DecidableEq

/-- Models `RecordResponse` from `src/hetzner_dns.rs` (lines 61-64). -/
structure RecordResponse where
  records : List Record
deriving DecidableEq

/-- Models `UpdateRecordData` from `src/hetzner_dns.rs` (lines 79-87). -/
structure UpdateRecordData where
  name : String
  ttl : Nat
  typ : String
  value : String
  zone_id : String
deriving DecidableEq

/-- Models `Target` from `src/main.rs` (lines 18-24). -/
structure Target where
  zone_name : String
  record_name : String
deriving DecidableEq

/-- Models `Config` from `src/main.rs` (lines 26-30). -/
structure Config where
  api_token : String
  targets : List Target
deriving DecidableEq

/-- Models Rust std's `Ipv4Addr` as its four octets. -/
structure Ipv4Addr where
  a : Nat
  b : Nat
  c : Nat
  d : Nat
deriving DecidableEq

/-- Models Rust std's `Ipv4Addr::to_string` (dotted-quad textual form). -/
def Ipv4Addr.to_string (ip : Ipv4Addr) : String :=
  toString ip.a ++ "." ++ toString ip.b ++ "." ++ toString ip.c ++ "." ++ toString ip.d

/-- Splits a character list at every occurrence of `sep` (helper for the
address parsers that model Rust std's `FromStr`). -/
def splitOnChar (sep : Char) : List Char → List (List Char)
  | [] => [[]]
  | c :: cs =>
    let r := splitOnChar sep cs
    if c = sep then [] :: r
    else
      match r with
      | [] => [[c]]
      | g :: gs => (c :: g) :: gs

/-- Parses a non-empty run of decimal digits (helper for `Ipv4Addr.from_str`). -/
def digitsToNat? (cs : List Char) : Option Nat :=
  if cs.isEmpty then none
  else cs.foldlM (fun acc c => if c.isDigit then some (acc * 10 + (c.toNat - 48)) else none) 0

/-- Models Rust std's `Ipv4Addr::from_str`: four dot-separated decimal octets,
each at most 255 (std's extra lexical restrictions are immaterial here). -/
def Ipv4Addr.from_str (s : String) : Option Ipv4Addr :=
  match (splitOnChar '.' s.data).mapM digitsToNat? with
  | some [a, b, c, d] =>
    if a ≤ 255 && b ≤ 255 && c ≤ 255 && d ≤ 255 then some ⟨a, b, c, d⟩ else none
  | _ => none

/-- Models Rust std's `Ipv6Addr` as its eight 16-bit groups. -/
structure Ipv6Addr where
  segments : List Nat
deriving DecidableEq

/-- Hexadecimal rendering of a number (helper for `Ipv6Addr.to_string`). -/
def hexString (n : Nat) : String :=
  String.mk (Nat.toDigits 16 n)

/-- Models Rust std's `Ipv6Addr::to_string` (colon-separated hexadecimal
groups; std additionally compresses zero runs, which no claim depends on). -/
def Ipv6Addr.to_string (ip : Ipv6Addr) : String :=
  String.intercalate ":" (ip.segments.map hexString)

/-- Parses a non-empty run of hexadecimal digits (helper for `Ipv6Addr.from_str`). -/
def hexToNat? (cs : List Char) : Option Nat :=
  if cs.isEmpty then none
  else
    cs.foldlM
      (fun acc c =>
        if c.isDigit then some (acc * 16 + (c.toNat - 48))
        else if 'a' ≤ c && c ≤ 'f' then some (acc * 16 + (c.toNat - 87))
        else if 'A' ≤ c && c ≤ 'F' then some (acc * 16 + (c.toNat - 55))
        else none)
      0

/-- Models Rust std's `Ipv6Addr::from_str`: eight colon-separated hexadecimal
groups, each at most 0xFFFF (std's `::` compression is immaterial here). -/
def Ipv6Addr.from_str (s : String) : Option Ipv6Addr :=
  match (splitOnChar ':' s.data).mapM hexToNat? with
  | some gs => if gs.length = 8 && gs.all (· ≤ 65535) then some ⟨gs⟩ else none
  | none => none

/-- Models the alias `type OwnAddrs = (Option<Ipv4Addr>, Option<Ipv6Addr>)`
from `src/main.rs` line 53. -/
abbrev OwnAddrs := Option Ipv4Addr × Option Ipv6Addr

deriving instance DecidableEq for Except

/-- A run-time failure: `apiError` models an `eyre` error value (carrying its
message), `panic` models a Rust panic such as `unwrap` on `None` or an
`unreachable!` branch. -/
inductive RunError
  | apiError (msg : String)
  | panic (msg : String)
deriving DecidableEq

/-- One observable interaction of the program: a request sent to the
provider API, or a warning emitted by the reconciler when it skips a record. -/
inductive Event
  | getZones (name : Option String) (page : Option Nat)
  | getRecords (zone_id : String)
  | updateRecord (record_id : String) (data : UpdateRecordData)
  | warn (msg : String)
deriving DecidableEq

/-- The DNS provider, abstracted as its three HTTP endpoints
(`GET /zones`, `GET /records`, `PUT /records/{id}`).  `zones` receives the
`name` and `page` query parameters actually present in the request; a request
without a `page` parameter (`none`) is served the provider's default page. -/
structure Server where
  zones : Option String → Option Nat → Except String (Response ZoneResponse)
  records : String → Except String RecordResponse
  update : String → UpdateRecordData → Except String Unit

/-- Models `Client::get_all_zones` from `src/hetzner_dns.rs` (lines 122-137):
the request it builds carries only the `name` query parameter (line 131), so
the `search_name` and `page` arguments never reach the provider. -/
def Client.get_all_zones (srv : Server) (name : Option String)
    (search_name : Option String) (page : Option Nat) :
    Except String (Response ZoneResponse) :=
  srv.zones name none

/-- Models `Client::get_all_records` from `src/hetzner_dns.rs` (lines 140-150). -/
def Client.get_all_records (srv : Server) (zone_id : String) :
    Except String RecordResponse :=
  srv.records zone_id

/-- Models `Client::update_record` from `src/hetzner_dns.rs` (lines 153-166). -/
def Client.update_record (srv : Server) (record_id : String)
    (data : UpdateRecordData) : Except String Unit :=
  srv.update record_id data

/-- Models `find_records` from `src/main.rs` (lines 140-166), with its event
trace.  The `with_context` message of line 148 becomes the `apiError` text;
`.first().unwrap()` on the returned zone list becomes `head?`, whose `none`
case is the modelled panic. -/
def find_records (srv : Server) (target : Target) :
    List Event × Except RunError (List Record) :=
  match Client.get_all_zones srv (some target.zone_name) none none with
  | Except.error _ =>
    ([Event.getZones (some target.zone_name) none],
     Except.error (RunError.apiError ("Could not retrieve information about zone "
       ++ target.zone_name
       ++ ". Ensure that it exists and you have permission to access it")))
  | Except.ok resp =>
    match resp.content.zones.head? with
    | none =>
      ([Event.getZones (some target.zone_name) none],
       Except.error (RunError.panic "called Option.unwrap on a None value"))
    | some htz_zone =>
      match Client.get_all_records srv htz_zone.id with
      | Except.error e =>
        ([Event.getZones (some target.zone_name) none, Event.getRecords htz_zone.id],
         Except.error (RunError.apiError e))
      | Except.ok rr =>
        ([Event.getZones (some target.zone_name) none, Event.getRecords htz_zone.id],
         Except.ok ((rr.records.filter (fun r => r.name == target.record_name)).filter
           (fun r => r.typ == "A" || r.typ == "AAAA")))

/-- The value selection of `update_zone` (`src/main.rs` lines 98-120): the
match on the record's type string, yielding the candidate value, a
skip-with-warning (`continue`), or the `unreachable!` branch of line 119. -/
inductive ValueStep
  | val (v : String)
  | skipWarn (msg : String)
  | unreachableTypes
deriving DecidableEq

/-- The candidate value computed for one record by `update_zone`
(`src/main.rs` lines 98-120), including the exact warning texts of
lines 102-117 (the source misspells "becacuse" in the IPv4 message). -/
def recordValue (own : OwnAddrs) (r : Record) : ValueStep :=
  if r.typ = "A" then
    match own.1 with
    | some ip => ValueStep.val (Ipv4Addr.to_string ip)
    | none =>
      ValueStep.skipWarn ("Cannot update A record " ++ r.name
        ++ " becacuse host has no IPv4 connectivity")
  else if r.typ = "AAAA" then
    match own.2 with
    | some ip => ValueStep.val (Ipv6Addr.to_string ip)
    | none =>
      ValueStep.skipWarn ("Cannot update AAAA record " ++ r.name
        ++ " because host has no IPv6 connectivity")
  else ValueStep.unreachableTypes

/-- Models the record loop of `update_zone` (`src/main.rs` lines 97-135):
skip (`continue`) on a missing address family, panic on a foreign record
type, and otherwise a `PUT` whose failure propagates through `?`. -/
def updateLoop (srv : Server) (own : OwnAddrs) :
    List Record → List Event × Except RunError Unit
  | [] => ([], Except.ok ())
  | r :: rest =>
    match recordValue own r with
    | ValueStep.skipWarn msg =>
      let p := updateLoop srv own rest
      (Event.warn msg :: p.1, p.2)
    | ValueStep.unreachableTypes =>
      ([], Except.error (RunError.panic
        "records other than A and AAAA are filtered out beforehand"))
    | ValueStep.val value =>
      let data : UpdateRecordData :=
        { name := r.name, ttl := 60, typ := r.typ, value := value, zone_id := r.zone_id }
      match Client.update_record srv r.id data with
      | Except.error e =>
        ([Event.updateRecord r.id data], Except.error (RunError.apiError e))
      | Except.ok _ =>
        let p := updateLoop srv own rest
        (Event.updateRecord r.id data :: p.1, p.2)

/-- Models `update_zone` from `src/main.rs` (lines 95-138): resolve the
target's records (`?` on failure), then run the record loop. -/
def update_zone (srv : Server) (zone : Target) (own_addrs : OwnAddrs) :
    List Event × Except RunError Unit :=
  match find_records srv zone with
  | (evs, Except.error e) => (evs, Except.error e)
  | (evs, Except.ok records) =>
    let p := updateLoop srv own_addrs records
    (evs ++ p.1, p.2)

/-- Models the IPv4 leg of `get_own_ips` (`src/main.rs` lines 170-176):
`resp4 = none` is a failed request (treated as no connectivity), a body that
does not parse is a fatal error. -/
def fetch_ipv4 (resp4 : Option String) : Except RunError (Option Ipv4Addr) :=
  match resp4 with
  | none => Except.ok none
  | some txt =>
    match Ipv4Addr.from_str txt with
    | some ip => Except.ok (some ip)
    | none =>
      Except.error (RunError.apiError
        "ip.kritzl.dev did not return a well-formed IPv4 address")

/-- Models the IPv6 leg of `get_own_ips` (`src/main.rs` lines 178-184). -/
def fetch_ipv6 (resp6 : Option String) : Except RunError (Option Ipv6Addr) :=
  match resp6 with
  | none => Except.ok none
  | some txt =>
    match Ipv6Addr.from_str txt with
    | some ip => Except.ok (some ip)
    | none =>
      Except.error (RunError.apiError
        "ip.kritzl.dev did not return a well-formed IPv6 address")

/-- Models `get_own_ips` from `src/main.rs` (lines 168-206), as a function of
the two discovery-service responses (`none` models a failed request): both
families absent is the fatal error of lines 186-191. -/
def get_own_ips (resp4 resp6 : Option String) : Except RunError OwnAddrs := do
  let ipv4 ← fetch_ipv4 resp4
  let ipv6 ← fetch_ipv6 resp6
  match ipv4, ipv6 with
  | none, none =>
    Except.error (RunError.apiError
      "ip.kritzl.dev did not return any ip addresses but we were able to reach it")
  | _, _ => Except.ok (ipv4, ipv6)

/-- Models the per-target loop of `main` (`src/main.rs` lines 78-80): each
`update_zone` call carries `?`, so its error ends the loop at once. -/
def targetLoop (srv : Server) (own : OwnAddrs) :
    List Target → List Event × Except RunError Unit
  | [] => ([], Except.ok ())
  | t :: rest =>
    match update_zone srv t own with
    | (evs, Except.error e) => (evs, Except.error e)
    | (evs, Except.ok _) =>
      let p := targetLoop srv own rest
      (evs ++ p.1, p.2)

/-- Models `main` from `src/main.rs` (lines 56-83) after configuration and CLI
parsing: discover own addresses (`?`), probe the API key with an unfiltered
zone listing (lines 73-76), then reconcile each target in order. -/
def mainRun (config : Config) (resp4 resp6 : Option String) (srv : Server) :
    List Event × Except RunError Unit :=
  match get_own_ips resp4 resp6 with
  | Except.error e => ([], Except.error e)
  | Except.ok ips =>
    match Client.get_all_zones srv none none none with
    | Except.error _ =>
      ([Event.getZones none none],
       Except.error (RunError.apiError
         "Api-Key does not seem valid since no zones could be listed"))
    | Except.ok _ =>
      let p := targetLoop srv ips config.targets
      (Event.getZones none none :: p.1, p.2)

/-- Models Rust's `Debug` rendering of a string field (escaping elided). -/
def debugStr (s : String) : String :=
  "\"" ++ s ++ "\""

/-- Models the derived `Debug` of `Target` (`src/main.rs` line 18). -/
def Target.debugFmt (t : Target) : String :=
  "Target \x7b zone_name: " ++ debugStr t.zone_name
    ++ ", record_name: " ++ debugStr t.record_name ++ " \x7d"

/-- Models the `Debug` rendering of a list of targets. -/
def targetsDebugFmt (ts : List Target) : String :=
  "[" ++ String.intercalate ", " (ts.map Target.debugFmt) ++ "]"

/-- Models the hand-written `impl fmt::Debug for Config` of `src/main.rs`
(lines 32-39): the `api_token` field is printed as the fixed string
`"**********"` and only `targets` is formatted from the value. -/
def Config.debugFmt (c : Config) : String :=
  "Config \x7b api_token: " ++ debugStr "**********"
    ++ ", targets: " ++ targetsDebugFmt c.targets ++ " \x7d"

/-! ## Concrete fixtures -/

/-- A zone for `example.com` that the provider stores on its second page. -/
def zC1 : Zone := ⟨"z2", "example.com", "", "", false, "", false, [], 0, "", "", 0, "", ""⟩

/-- A provider whose zone listing for `example.com` is split over two pages:
the default page (page 1) is empty but advertises `last_page = 2`, and page 2
holds the matching zone. -/
def srvC1 : Server where
  zones := fun name page =>
    if name = some "example.com" then
      match page with
      | some 2 => Except.ok ⟨⟨⟨2, 2, 100, 1⟩⟩, ⟨[zC1]⟩⟩
      | _ => Except.ok ⟨⟨⟨2, 1, 100, 1⟩⟩, ⟨[]⟩⟩
    else Except.error "404 Not Found"
  records := fun _ => Except.ok ⟨[]⟩
  update := fun _ _ => Except.ok ()

/-- The target aimed at the zone that lives on page 2. -/
def tC1 : Target := ⟨"example.com", "home"⟩

/-- Claim C1: the resolver is claimed to iterate pages of the zone listing
until the target's zone is found or the last page is consumed.  The code does
not: `Client.get_all_zones` drops its `page` argument (the request carries
only `name`), so even an explicit request for page 2 is served the default
page, and `find_records` consumes only that single reply — on a provider
holding the matching zone only on page 2 it panics on the empty first page
instead of finding the zone. -/
theorem find_records_first_page_only :
    find_records srvC1 tC1 =
      ([Event.getZones (some "example.com") none],
       Except.error (RunError.panic "called Option.unwrap on a None value"))
    ∧ Client.get_all_zones srvC1 (some "example.com") none (some 2) =
        srvC1.zones (some "example.com") none
    ∧ srvC1.zones (some "example.com") (some 2) = Except.ok ⟨⟨⟨2, 2, 100, 1⟩⟩, ⟨[zC1]⟩⟩
    ∧ srvC1.zones (some "example.com") none = Except.ok ⟨⟨⟨2, 1, 100, 1⟩⟩, ⟨[]⟩⟩ :=
  ⟨rfl, rfl, rfl, rfl⟩

/-- Claim C2: when the provider has no zone of the requested name, its zone
listing replies with an error (HTTP 404; per the client doc it returns "an
array with the results" or "an error").  Resolution then surfaces the
contextualised zone-not-found error, the trace holds only the one zone
request, and no update call is attempted for that target. -/
theorem zone_not_found_surfaced_no_update (srv : Server) (t : Target)
    (own : OwnAddrs) (e : String)
    (h : srv.zones (some t.zone_name) none = Except.error e) :
    update_zone srv t own =
      ([Event.getZones (some t.zone_name) none],
       Except.error (RunError.apiError ("Could not retrieve information about zone "
         ++ t.zone_name
         ++ ". Ensure that it exists and you have permission to access it"))) := by
  simp [update_zone, find_records, Client.get_all_zones, h]

/-- A provider that knows no zones at all. -/
def srvNoZones : Server where
  zones := fun _ _ => Except.error "404 Not Found"
  records := fun _ => Except.ok ⟨[]⟩
  update := fun _ _ => Except.ok ()

/-- Witness for C2 at a concrete provider and target. -/
theorem zone_not_found_surfaced_no_update_witness :
    update_zone srvNoZones ⟨"missing.com", "home"⟩ (some ⟨1, 2, 3, 4⟩, none) =
      ([Event.getZones (some "missing.com") none],
       Except.error (RunError.apiError ("Could not retrieve information about zone "
         ++ "missing.com"
         ++ ". Ensure that it exists and you have permission to access it"))) :=
  zone_not_found_surfaced_no_update srvNoZones ⟨"missing.com", "home"⟩
    (some ⟨1, 2, 3, 4⟩, none) "404 Not Found" rfl

/-- Claim C9: when the discovery service is unreachable for both address
families, the run aborts with the discovery error before anything else: the
event trace is empty, so no zone listing, record listing or update request is
ever sent, whatever the configuration and the provider. -/
theorem no_addresses_aborts_before_targets (config : Config) (srv : Server) :
    mainRun config none none srv =
      ([], Except.error (RunError.apiError
        "ip.kritzl.dev did not return any ip addresses but we were able to reach it")) :=
  rfl

/-- Claim C10: the `Debug` rendering of the configuration is independent of
the `api_token` value — two configurations with the same targets format
identically, because the token is always printed as the fixed redaction
string. -/
theorem config_debug_independent_of_token (c1 c2 : Config)
    (h : c1.targets = c2.targets) :
    Config.debugFmt c1 = Config.debugFmt c2 := by
  simp [Config.debugFmt, h]

/-- Witness for C10: two configurations that differ only in their secret
token have identical debug output. -/
theorem config_debug_independent_of_token_witness :
    Config.debugFmt ⟨"hunter2", [⟨"example.com", "home"⟩]⟩ =
      Config.debugFmt ⟨"s3cr3t-token", [⟨"example.com", "home"⟩]⟩ :=
  config_debug_independent_of_token ⟨"hunter2", [⟨"example.com", "home"⟩]⟩
    ⟨"s3cr3t-token", [⟨"example.com", "home"⟩]⟩ rfl

/-- The zone `b.com`, resolvable without error. -/
def zB : Zone := ⟨"zb", "b.com", "", "", false, "", false, [], 0, "", "", 0, "", ""⟩

/-- A provider for which the first configured target's zone lookup fails
(`a.com` is unknown) while the second target's zone `b.com` resolves fine.
The unfiltered listing used by the API-key probe succeeds. -/
def srvTwoTargets : Server where
  zones := fun name _ =>
    if name = some "a.com" then Except.error "404 Not Found"
    else Except.ok ⟨⟨⟨1, 1, 100, 1⟩⟩, ⟨[zB]⟩⟩
  records := fun _ => Except.ok ⟨[]⟩
  update := fun _ _ => Except.ok ()

/-- A configuration listing the failing target before a healthy one. -/
def cfgTwoTargets : Config := ⟨"token", [⟨"a.com", "home"⟩, ⟨"b.com", "home"⟩]⟩

/-- Counterexample to claim C3: with the failing target `a.com` listed first,
the whole run ends with its error — the trace holds the API-key probe and the
one zone lookup, and no request for the second target `b.com` is ever made,
although its zone lookup would have succeeded. -/
theorem target_error_aborts_run_cx :
    mainRun cfgTwoTargets (some "1.2.3.4") none srvTwoTargets =
      ([Event.getZones none none, Event.getZones (some "a.com") none],
       Except.error (RunError.apiError ("Could not retrieve information about zone "
         ++ "a.com"
         ++ ". Ensure that it exists and you have permission to access it")))
    ∧ Event.getZones (some "b.com") none ∉
        (mainRun cfgTwoTargets (some "1.2.3.4") none srvTwoTargets).1
    ∧ srvTwoTargets.zones (some "b.com") none = Except.ok ⟨⟨⟨1, 1, 100, 1⟩⟩, ⟨[zB]⟩⟩ :=
  ⟨rfl, by decide, rfl⟩

/-- Claim C3 as amended: an error while resolving or reconciling one target
is propagated by the `?` in `main`'s loop, so it aborts the whole run — the
remaining targets are not attempted and the trace ends with the failing
target's events. -/
theorem target_error_aborts_subsequent_targets (srv : Server) (own : OwnAddrs)
    (t : Target) (rest : List Target) (evs : List Event) (e : RunError)
    (h : update_zone srv t own = (evs, Except.error e)) :
    targetLoop srv own (t :: rest) = (evs, Except.error e) := by
  simp [targetLoop, h]

/-- Witness for the amended C3 at the concrete two-target fixture. -/
theorem target_error_aborts_subsequent_targets_witness :
    targetLoop srvTwoTargets (some ⟨1, 2, 3, 4⟩, none) [⟨"a.com", "home"⟩, ⟨"b.com", "home"⟩] =
      ([Event.getZones (some "a.com") none],
       Except.error (RunError.apiError ("Could not retrieve information about zone "
         ++ "a.com"
         ++ ". Ensure that it exists and you have permission to access it"))) :=
  target_error_aborts_subsequent_targets srvTwoTargets (some ⟨1, 2, 3, 4⟩, none)
    ⟨"a.com", "home"⟩ [⟨"b.com", "home"⟩] _ _ rfl

/-- An A record named `home` whose update the provider will reject. -/
def rA1 : Record := ⟨"r1", "home", "A", "9.9.9.9", some 3600, "zb", "", ""⟩

/-- A second A record named `home` whose update the provider would accept. -/
def rA2 : Record := ⟨"r2", "home", "A", "9.9.9.9", some 3600, "zb", "", ""⟩

/-- A provider holding both records in zone `b.com`, rejecting updates of
`r1` (non-2xx) and accepting updates of `r2`. -/
def srvRejectFirst : Server where
  zones := fun name _ =>
    if name = some "b.com" then Except.ok ⟨⟨⟨1, 1, 100, 1⟩⟩, ⟨[zB]⟩⟩
    else Except.error "404 Not Found"
  records := fun zid => if zid = "zb" then Except.ok ⟨[rA1, rA2]⟩ else Except.ok ⟨[]⟩
  update := fun rid _ =>
    if rid = "r1" then Except.error "422 Unprocessable Entity" else Except.ok ()

/-- Counterexample to claim C4: the provider rejects the update of the first
record `r1`; the `?` on `update_record` then aborts `update_zone`, so the
second eligible record `r2` never receives its update attempt, although the
provider would have accepted it. -/
theorem record_update_failure_aborts_siblings_cx :
    update_zone srvRejectFirst ⟨"b.com", "home"⟩ (some ⟨1, 2, 3, 4⟩, none) =
      ([Event.getZones (some "b.com") none, Event.getRecords "zb",
        Event.updateRecord "r1" ⟨"home", 60, "A", "1.2.3.4", "zb"⟩],
       Except.error (RunError.apiError "422 Unprocessable Entity"))
    ∧ Event.updateRecord "r2" ⟨"home", 60, "A", "1.2.3.4", "zb"⟩ ∉
        (update_zone srvRejectFirst ⟨"b.com", "home"⟩ (some ⟨1, 2, 3, 4⟩, none)).1
    ∧ srvRejectFirst.update "r2" ⟨"home", 60, "A", "1.2.3.4", "zb"⟩ = Except.ok () :=
  ⟨rfl, by decide, rfl⟩

/-- Claim C4 as amended: a provider-reported failure of one record's update
propagates through the `?` in the record loop, aborting the target's
reconciliation — the remaining records of that target receive no update
attempt. -/
theorem update_failure_aborts_remaining_records (srv : Server) (own : OwnAddrs)
    (r : Record) (rest : List Record) (v : String) (e : String)
    (hv : recordValue own r = ValueStep.val v)
    (hu : srv.update r.id ⟨r.name, 60, r.typ, v, r.zone_id⟩ = Except.error e) :
    updateLoop srv own (r :: rest) =
      ([Event.updateRecord r.id ⟨r.name, 60, r.typ, v, r.zone_id⟩],
       Except.error (RunError.apiError e)) := by
  simp [updateLoop, hv, Client.update_record, hu]

/-- Witness for the amended C4 at the concrete rejecting provider. -/
theorem update_failure_aborts_remaining_records_witness :
    updateLoop srvRejectFirst (some ⟨1, 2, 3, 4⟩, none) [rA1, rA2] =
      ([Event.updateRecord "r1" ⟨"home", 60, "A", "1.2.3.4", "zb"⟩],
       Except.error (RunError.apiError "422 Unprocessable Entity")) :=
  update_failure_aborts_remaining_records srvRejectFirst (some ⟨1, 2, 3, 4⟩, none)
    rA1 [rA2] "1.2.3.4" "422 Unprocessable Entity" rfl rfl

/-- Claim C5: for a record of type `A` with an IPv4 address available (and
symmetrically type `AAAA` with an IPv6 address), the update request issued
for that record — the first event the record loop emits — carries the
address's textual form as `value`, 60 as `ttl` regardless of the record's
prior ttl, and the record's `name`, `type` and `zone_id` unchanged. -/
theorem address_update_payload_fields (srv : Server) (own : OwnAddrs)
    (r : Record) (rest : List Record) (v : String)
    (h : (r.typ = "A" ∧ ∃ ip, own.1 = some ip ∧ v = Ipv4Addr.to_string ip) ∨
         (r.typ = "AAAA" ∧ ∃ ip, own.2 = some ip ∧ v = Ipv6Addr.to_string ip)) :
    (updateLoop srv own (r :: rest)).1.head? =
      some (Event.updateRecord r.id ⟨r.name, 60, r.typ, v, r.zone_id⟩) := by
  rcases h with ⟨ht, ip, hip, hv⟩ | ⟨ht, ip, hip, hv⟩
  · subst hv
    have hrv : recordValue own r = ValueStep.val (Ipv4Addr.to_string ip) := by
      simp [recordValue, ht, hip]
    cases hu : Client.update_record srv r.id
        ⟨r.name, 60, r.typ, Ipv4Addr.to_string ip, r.zone_id⟩ <;>
      simp [updateLoop, hrv, hu]
  · subst hv
    have hrv : recordValue own r = ValueStep.val (Ipv6Addr.to_string ip) := by
      simp [recordValue, ht, hip]
    cases hu : Client.update_record srv r.id
        ⟨r.name, 60, r.typ, Ipv6Addr.to_string ip, r.zone_id⟩ <;>
      simp [updateLoop, hrv, hu]

/-- Witness for C5: the accepted record `r2` (prior ttl 3600) gets an update
keyed by its id with value `1.2.3.4`, ttl 60, and its own name/type/zone. -/
theorem address_update_payload_fields_witness :
    (updateLoop srvRejectFirst (some ⟨1, 2, 3, 4⟩, none) [rA2]).1.head? =
      some (Event.updateRecord rA2.id
        ⟨rA2.name, 60, rA2.typ, Ipv4Addr.to_string ⟨1, 2, 3, 4⟩, rA2.zone_id⟩) :=
  address_update_payload_fields srvRejectFirst (some ⟨1, 2, 3, 4⟩, none) rA2 []
    (Ipv4Addr.to_string ⟨1, 2, 3, 4⟩) (Or.inl ⟨rfl, ⟨1, 2, 3, 4⟩, rfl, rfl⟩)

/-- Claim C6: a record of type `A` with no IPv4 address available (and
symmetrically `AAAA` with no IPv6) is skipped with the source's
no-connectivity warning, no update request is issued for it, and the loop
continues with the remaining records exactly as if the record were absent. -/
theorem missing_family_skips_record (srv : Server) (own : OwnAddrs)
    (r : Record) (rest : List Record)
    (h : (r.typ = "A" ∧ own.1 = none) ∨ (r.typ = "AAAA" ∧ own.2 = none)) :
    updateLoop srv own (r :: rest) =
      (Event.warn (if r.typ = "A"
          then "Cannot update A record " ++ r.name
            ++ " becacuse host has no IPv4 connectivity"
          else "Cannot update AAAA record " ++ r.name
            ++ " because host has no IPv6 connectivity")
        :: (updateLoop srv own rest).1,
       (updateLoop srv own rest).2) := by
  rcases h with ⟨ht, hip⟩ | ⟨ht, hip⟩ <;> simp [updateLoop, recordValue, ht, hip]

/-- An AAAA record named `home` in zone `b.com`. -/
def rAAAA : Record := ⟨"r5", "home", "AAAA", "::1", some 300, "zb", "", ""⟩

/-- Witness for C6: with only IPv4 connectivity, the AAAA record is skipped
with the IPv6 warning and the loop goes on with the rest of the list. -/
theorem missing_family_skips_record_witness :
    updateLoop srvRejectFirst (some ⟨1, 2, 3, 4⟩, none) [rAAAA] =
      (Event.warn (if rAAAA.typ = "A"
          then "Cannot update A record " ++ rAAAA.name
            ++ " becacuse host has no IPv4 connectivity"
          else "Cannot update AAAA record " ++ rAAAA.name
            ++ " because host has no IPv6 connectivity")
        :: (updateLoop srvRejectFirst (some ⟨1, 2, 3, 4⟩, none) []).1,
       (updateLoop srvRejectFirst (some ⟨1, 2, 3, 4⟩, none) []).2) :=
  missing_family_skips_record srvRejectFirst (some ⟨1, 2, 3, 4⟩, none) rAAAA []
    (Or.inr ⟨rfl, rfl⟩)

/-- Claim C7: when the zone lookup and the record listing both succeed, the
resolver returns — as a success, even when empty — exactly the records whose
name equals the target's record name character for character and whose type
is `A` or `AAAA`; records with other names or other types (e.g. `CNAME`) are
excluded without raising an error. -/
theorem record_filter_exact_name_and_type (srv : Server) (t : Target)
    (resp : Response ZoneResponse) (z : Zone) (zs : List Zone) (rr : RecordResponse)
    (hz : srv.zones (some t.zone_name) none = Except.ok resp)
    (hzz : resp.content.zones = z :: zs)
    (hr : srv.records z.id = Except.ok rr) :
    (find_records srv t).2 =
      Except.ok ((rr.records.filter (fun r => r.name == t.record_name)).filter
        (fun r => r.typ == "A" || r.typ == "AAAA"))
    ∧ ∀ r : Record,
        (r ∈ (rr.records.filter (fun r => r.name == t.record_name)).filter
          (fun r => r.typ == "A" || r.typ == "AAAA")) ↔
        (r ∈ rr.records ∧ r.name = t.record_name ∧ (r.typ = "A" ∨ r.typ = "AAAA")) := by
  constructor
  · simp [find_records, Client.get_all_zones, Client.get_all_records, hz, hzz, hr]
  · intro r
    simp only [List.mem_filter, Bool.or_eq_true, beq_iff_eq]
    tauto

/-- The zone `example.com`. -/
def zEx : Zone := ⟨"z1", "example.com", "", "", false, "", false, [], 0, "", "", 0, "", ""⟩

/-- An A record named `sub.example.com` (must not match `example.com`). -/
def recSub : Record := ⟨"r3", "sub.example.com", "A", "1.1.1.1", some 300, "z1", "", ""⟩

/-- A CNAME record named `example.com` (matching name, excluded type). -/
def recCname : Record := ⟨"r4", "example.com", "CNAME", "other.example.com", some 300, "z1", "", ""⟩

/-- A provider whose zone `example.com` holds only `recSub` and `recCname`. -/
def srvFilter : Server where
  zones := fun name _ =>
    if name = some "example.com" then Except.ok ⟨⟨⟨1, 1, 100, 1⟩⟩, ⟨[zEx]⟩⟩
    else Except.error "404 Not Found"
  records := fun zid => if zid = "z1" then Except.ok ⟨[recSub, recCname]⟩ else Except.ok ⟨[]⟩
  update := fun _ _ => Except.ok ()

/-- Witness for C7: a target for record `example.com` matches neither the
`sub.example.com` A record nor the `CNAME`, and the empty result is a
success, not an error. -/
theorem record_filter_exact_name_and_type_witness :
    (find_records srvFilter ⟨"example.com", "example.com"⟩).2 = Except.ok [] :=
  ((record_filter_exact_name_and_type srvFilter ⟨"example.com", "example.com"⟩
      ⟨⟨⟨1, 1, 100, 1⟩⟩, ⟨[zEx]⟩⟩ zEx [] ⟨[recSub, recCname]⟩ rfl rfl rfl).1).trans
    (by decide)

/-- Claim C8: every record in a successfully resolved list has type `A` or
`AAAA`, so on resolver output the reconciler's value selection can never hit
its `unreachable!` branch, whatever the host's connectivity. -/
theorem resolver_output_only_address_types (srv : Server) (t : Target)
    (l : List Record) (r : Record) (own : OwnAddrs)
    (h1 : (find_records srv t).2 = Except.ok l) (h2 : r ∈ l) :
    (r.typ = "A" ∨ r.typ = "AAAA") ∧ recordValue own r ≠ ValueStep.unreachableTypes := by
  have htyp : r.typ = "A" ∨ r.typ = "AAAA" := by
    cases hz : srv.zones (some t.zone_name) none with
    | error e => simp [find_records, Client.get_all_zones, hz] at h1
    | ok resp =>
      cases hh : resp.content.zones.head? with
      | none => simp [find_records, Client.get_all_zones, hz, hh] at h1
      | some z =>
        cases hr : srv.records z.id with
        | error e =>
          simp [find_records, Client.get_all_zones, Client.get_all_records, hz, hh, hr] at h1
        | ok rr =>
          simp [find_records, Client.get_all_zones, Client.get_all_records, hz, hh, hr] at h1
          subst h1
          have hf := List.of_mem_filter h2
          simp at hf
          exact hf.1
  refine ⟨htyp, ?_⟩
  rcases htyp with ht | ht
  · rcases hip : own.1 with _ | ip <;> simp [recordValue, ht, hip]
  · rcases hip : own.2 with _ | ip <;> simp [recordValue, ht, hip]

/-- Witness for C8 at a concrete resolved list: `rA1` comes out of the
resolver and cannot trigger the unreachable branch. -/
theorem resolver_output_only_address_types_witness :
    (rA1.typ = "A" ∨ rA1.typ = "AAAA") ∧
      recordValue (some ⟨1, 2, 3, 4⟩, none) rA1 ≠ ValueStep.unreachableTypes :=
  resolver_output_only_address_types srvRejectFirst ⟨"b.com", "home"⟩ [rA1, rA2] rA1
    (some ⟨1, 2, 3, 4⟩, none) (by decide) (by decide)
